import Mathlib

/-!
Shallow embedding of the EHR clinic-workflow core (Supabase schema,
row-level-security policies and triggers from
`supabase/migrations/20250122093809_solitary_smoke.sql` and
`supabase/migrations/20250124075108_jade_lab.sql`, with the client-side
payload shapes from `lib/database.types.ts`).

UUIDs and timestamps are modelled as `Nat`; nullable SQL columns as
`Option`; each table as a `List` of rows inside a `DB` record.  Every
write operation returns `Except DbError DB`: an error persists nothing.
-/

namespace EHR

/-- Column `profiles.role`: one of doctor / operations / pharmacist. -/
inductive Role where
  | doctor
  | operations
  | pharmacist
deriving DecidableEq, Repr

/-- The enum `CREATE TYPE patient_status AS ENUM ('registered','checked','diagnosed','prescribed')`. -/
inductive PatientStatus where
  | registered
  | checked
  | diagnosed
  | prescribed
deriving DecidableEq, Repr

/-- A row of the `profiles` table (actor identity and role). -/
structure Profile where
  id : Nat
  role : Role
deriving DecidableEq, Repr

/-- A row of `patients`: name, gender (text with a CHECK), age (integer with a
CHECK), entry timestamp, derived status, creator. -/
structure Patient where
  id : Nat
  name : String
  gender : String
  age : Int
  entry_datetime : Nat
  status : PatientStatus
  created_by : Nat
deriving DecidableEq, Repr

/-- A row of `checkups` (including the columns added by the second migration). -/
structure Checkup where
  id : Nat
  patient_id : Nat
  checkup_description : String
  checkup_date : Nat
  created_by : Nat
  chief_complaint : Option String
  physical_examination : Option String
  notes : Option String
deriving DecidableEq, Repr

/-- A row of `diagnoses`. -/
structure Diagnosis where
  id : Nat
  checkup_id : Nat
  diagnosis_description : String
  diagnosis_datetime : Nat
  created_by : Nat
deriving DecidableEq, Repr

/-- A row of `prescriptions` (including the medication columns added by the
second migration: medication_id, dosage, frequency, duration, route,
special_instructions). -/
structure Prescription where
  id : Nat
  diagnosis_id : Nat
  prescription_details : String
  prescribed_datetime : Nat
  fulfilled : Bool
  fulfilled_datetime : Option Nat
  fulfilled_by : Option Nat
  created_by : Nat
  medication_id : Option Nat
  dosage : Option String
  frequency : Option String
  duration : Option String
  route : Option String
  special_instructions : Option String
deriving DecidableEq, Repr

/-- The persistent store: the five tables the core works with. -/
structure DB where
  profiles : List Profile
  patients : List Patient
  checkups : List Checkup
  diagnoses : List Diagnosis
  prescriptions : List Prescription
deriving DecidableEq, Repr

/-- Error taxonomy of the spec (§7); `immutableFieldError` is the trigger
exception "Only fulfillment status can be updated". -/
inductive DbError where
  | authorizationError
  | validationError
  | notFoundError
  | duplicateError
  | immutableFieldError
deriving DecidableEq, Repr

/-- The clause `EXISTS (SELECT 1 FROM profiles WHERE profiles.id = auth.uid() AND
profiles.role IN roles)` — the shape of every RLS WITH CHECK clause. -/
def hasRole (db : DB) (uid : Nat) (roles : List Role) : Bool :=
  db.profiles.any fun p => p.id == uid && roles.contains p.role

def findPatient (db : DB) (pid : Nat) : Option Patient :=
  db.patients.find? fun p => p.id == pid

def findCheckup (db : DB) (cid : Nat) : Option Checkup :=
  db.checkups.find? fun c => c.id == cid

def findDiagnosis (db : DB) (did : Nat) : Option Diagnosis :=
  db.diagnoses.find? fun d => d.id == did

def findPrescription (db : DB) (rid : Nat) : Option Prescription :=
  db.prescriptions.find? fun r => r.id == rid

/-- One branch of `update_patient_status`'s `UPDATE patients SET status = post
WHERE id = target AND status = pre`, applied to a single row (the WHERE clause
and SET, before row-level security is taken into account). -/
def setStatusIf (pre post : PatientStatus) (target : Nat) (p : Patient) : Patient :=
  if p.id == target && p.status == pre then { p with status := post } else p

/-- Row set an UPDATE on `patients` may touch under row-level security.  The
first migration runs `ALTER TABLE patients ENABLE ROW LEVEL SECURITY` and the
migrations create only SELECT and INSERT policies for `patients` — no UPDATE
or ALL policy — so PostgreSQL's default-deny applies to UPDATE commands: no
row qualifies, whoever the invoking user is. -/
def patientsUpdateVisible (db : DB) (uid : Nat) (p : Patient) : Bool :=
  false

/-- Function `update_patient_status`, `WHEN 'checkups'` branch.  The function
is declared without SECURITY DEFINER, hence SECURITY INVOKER: its
`UPDATE patients` runs as the inserting client `uid`, and row-level security
filters the row set through `patientsUpdateVisible` before the WHERE clause
(`setStatusIf`) applies. -/
def update_patient_status_on_checkup (db : DB) (uid patient_id : Nat) : DB :=
  { db with patients := db.patients.map fun p =>
      if patientsUpdateVisible db uid p then setStatusIf .registered .checked patient_id p else p }

/-- Function `update_patient_status`, `WHEN 'diagnoses'` branch: the owning patient is
resolved through the parent checkup (a SELECT, permitted to all authenticated
users); a NULL subquery result matches no row; the UPDATE itself is filtered
by row-level security as in the checkup branch. -/
def update_patient_status_on_diagnosis (db : DB) (uid checkup_id : Nat) : DB :=
  match findCheckup db checkup_id with
  | none => db
  | some c =>
      { db with patients := db.patients.map fun p =>
          if patientsUpdateVisible db uid p then setStatusIf .checked .diagnosed c.patient_id p else p }

/-- Function `update_patient_status`, `WHEN 'prescriptions'` branch: the owning patient
is resolved through diagnosis then checkup (SELECTs, permitted to all
authenticated users); the UPDATE itself is filtered by row-level security as
in the checkup branch. -/
def update_patient_status_on_prescription (db : DB) (uid diagnosis_id : Nat) : DB :=
  match findDiagnosis db diagnosis_id with
  | none => db
  | some d =>
      match findCheckup db d.checkup_id with
      | none => db
      | some c =>
          { db with patients := db.patients.map fun p =>
              if patientsUpdateVisible db uid p then setStatusIf .diagnosed .prescribed c.patient_id p else p }

/-- Client insert payload for `patients` (`Database.public.Tables.patients.Insert`):
`status` is optional and defaults to `'registered'`. -/
structure PatientInsert where
  id : Nat
  name : String
  gender : String
  age : Int
  status : Option PatientStatus
  created_by : Nat
deriving DecidableEq, Repr

/-- Client insert payload for `checkups`; `checkup_date` defaults to `now()`. -/
structure CheckupInsert where
  id : Nat
  patient_id : Nat
  checkup_description : String
  checkup_date : Option Nat
  created_by : Nat
  chief_complaint : Option String
  physical_examination : Option String
  notes : Option String
deriving DecidableEq, Repr

/-- Client insert payload for `diagnoses`; `diagnosis_datetime` defaults to `now()`. -/
structure DiagnosisInsert where
  id : Nat
  checkup_id : Nat
  diagnosis_description : String
  diagnosis_datetime : Option Nat
  created_by : Nat
deriving DecidableEq, Repr

/-- Client insert payload for `prescriptions`; `prescribed_datetime` defaults
to `now()`, `fulfilled` to `false`. -/
structure PrescriptionInsert where
  id : Nat
  diagnosis_id : Nat
  prescription_details : String
  prescribed_datetime : Option Nat
  created_by : Nat
  medication_id : Option Nat
  dosage : Option String
  frequency : Option String
  duration : Option String
  route : Option String
  special_instructions : Option String
deriving DecidableEq, Repr

/-- The allowed gender values of `CHECK (gender IN ('male','female','other'))`. -/
def allowedGenders : List String := ["male", "female", "other"]

/-- INSERT into `patients`: RLS policy "Doctors and OP staff can create
patients" (second migration), then the CHECK constraints on gender and age,
then the primary key; `status` defaults to `'registered'` when omitted. -/
def insertPatient (db : DB) (actor : Nat) (row : PatientInsert) (now : Nat) :
    Except DbError DB :=
  if !hasRole db actor [.doctor, .operations] then .error .authorizationError
  else if !allowedGenders.contains row.gender then .error .validationError
  else if row.age < 0 || row.age > 150 then .error .validationError
  else if db.patients.any (fun p => p.id == row.id) then .error .duplicateError
  else .ok { db with patients := db.patients ++
      [{ id := row.id, name := row.name, gender := row.gender, age := row.age,
         entry_datetime := now, status := row.status.getD .registered,
         created_by := row.created_by }] }

/-- INSERT into `checkups`: RLS policy "Doctors and OP staff can create
checkups", the foreign key to `patients`, `UNIQUE(patient_id, checkup_date)`,
the primary key, then the row is stored and the AFTER INSERT trigger
`update_status_on_checkup` fires. -/
def insertCheckup (db : DB) (actor : Nat) (row : CheckupInsert) (now : Nat) :
    Except DbError DB :=
  if !hasRole db actor [.doctor, .operations] then .error .authorizationError
  else if !(db.patients.any fun p => p.id == row.patient_id) then .error .notFoundError
  else
    let date := row.checkup_date.getD now
    if db.checkups.any (fun c => c.patient_id == row.patient_id && c.checkup_date == date) then
      .error .duplicateError
    else if db.checkups.any (fun c => c.id == row.id) then .error .duplicateError
    else
      let db1 := { db with checkups := db.checkups ++
        [{ id := row.id, patient_id := row.patient_id,
           checkup_description := row.checkup_description, checkup_date := date,
           created_by := row.created_by, chief_complaint := row.chief_complaint,
           physical_examination := row.physical_examination, notes := row.notes }] }
      .ok (update_patient_status_on_checkup db1 actor row.patient_id)

/-- INSERT into `diagnoses`: RLS policy "Only doctors can create diagnoses",
the foreign key to `checkups`, `UNIQUE(checkup_id)`, the primary key, then the
row is stored and the AFTER INSERT trigger `update_status_on_diagnosis` fires. -/
def insertDiagnosis (db : DB) (actor : Nat) (row : DiagnosisInsert) (now : Nat) :
    Except DbError DB :=
  if !hasRole db actor [.doctor] then .error .authorizationError
  else if !(db.checkups.any fun c => c.id == row.checkup_id) then .error .notFoundError
  else if db.diagnoses.any (fun d => d.checkup_id == row.checkup_id) then .error .duplicateError
  else if db.diagnoses.any (fun d => d.id == row.id) then .error .duplicateError
  else
    let db1 := { db with diagnoses := db.diagnoses ++
      [{ id := row.id, checkup_id := row.checkup_id,
         diagnosis_description := row.diagnosis_description,
         diagnosis_datetime := row.diagnosis_datetime.getD now,
         created_by := row.created_by }] }
    .ok (update_patient_status_on_diagnosis db1 actor row.checkup_id)

/-- INSERT into `prescriptions`: RLS policy "Only doctors can create
prescriptions", the foreign key to `diagnoses`, `UNIQUE(diagnosis_id)`, the
primary key, then the row is stored (with `fulfilled` defaulting to false) and
the AFTER INSERT trigger `update_status_on_prescription` fires. -/
def insertPrescription (db : DB) (actor : Nat) (row : PrescriptionInsert) (now : Nat) :
    Except DbError DB :=
  if !hasRole db actor [.doctor] then .error .authorizationError
  else if !(db.diagnoses.any fun d => d.id == row.diagnosis_id) then .error .notFoundError
  else if db.prescriptions.any (fun r => r.diagnosis_id == row.diagnosis_id) then
    .error .duplicateError
  else if db.prescriptions.any (fun r => r.id == row.id) then .error .duplicateError
  else
    let db1 := { db with prescriptions := db.prescriptions ++
      [{ id := row.id, diagnosis_id := row.diagnosis_id,
         prescription_details := row.prescription_details,
         prescribed_datetime := row.prescribed_datetime.getD now,
         fulfilled := false, fulfilled_datetime := none, fulfilled_by := none,
         created_by := row.created_by, medication_id := row.medication_id,
         dosage := row.dosage, frequency := row.frequency, duration := row.duration,
         route := row.route, special_instructions := row.special_instructions }] }
    .ok (update_patient_status_on_prescription db1 actor row.diagnosis_id)

/-- The BEFORE UPDATE trigger function `check_prescription_update`: only
pharmacists may update; only `prescription_details`, `diagnosis_id`,
`prescribed_datetime` and `created_by` are compared against OLD; on a
false→true flip of `fulfilled` the trigger overwrites `fulfilled_datetime`
with `now()` and `fulfilled_by` with `auth.uid()`. -/
def check_prescription_update (db : DB) (uid : Nat) (old neu : Prescription) (now : Nat) :
    Except DbError Prescription :=
  if !hasRole db uid [.pharmacist] then .error .authorizationError
  else if neu.prescription_details != old.prescription_details
       || neu.diagnosis_id != old.diagnosis_id
       || neu.prescribed_datetime != old.prescribed_datetime
       || neu.created_by != old.created_by then .error .immutableFieldError
  else if neu.fulfilled && !old.fulfilled then
    .ok { neu with fulfilled_datetime := some now, fulfilled_by := some uid }
  else .ok neu

/-- Row set an UPDATE on `prescriptions` may touch under row-level security.
The first migration runs `ALTER TABLE prescriptions ENABLE ROW LEVEL
SECURITY` and the migrations create only SELECT and INSERT policies for
`prescriptions` — no UPDATE or ALL policy — so default-deny applies to UPDATE
commands: no row qualifies, whoever the invoking user is. -/
def prescriptionsUpdateVisible (db : DB) (uid : Nat) (r : Prescription) : Bool :=
  false

/-- Client UPDATE of the `prescriptions` row with id `pid`, proposing the full
row `neu` (fields the client does not mention are carried over from the old
row by the caller).  Row-level security filters the row set first
(`prescriptionsUpdateVisible`); an UPDATE matching zero rows completes
without error and changes nothing.  On each matched row the BEFORE UPDATE
trigger `check_prescription_update_trigger` runs before the row is
replaced. -/
def updatePrescription (db : DB) (actor : Nat) (pid : Nat) (neu : Prescription) (now : Nat) :
    Except DbError DB :=
  match db.prescriptions.find?
      (fun r => prescriptionsUpdateVisible db actor r && r.id == pid) with
  | none => .ok db
  | some old =>
      match check_prescription_update db actor old neu now with
      | .error e => .error e
      | .ok stamped =>
          .ok { db with prescriptions :=
            db.prescriptions.map fun r => if r.id == pid then stamped else r }

/-- Statement `DELETE FROM checkups WHERE id = cid`, with the `ON DELETE CASCADE` chain
through `diagnoses` and `prescriptions`; no trigger touches patient status. -/
def deleteCheckup (db : DB) (cid : Nat) : DB :=
  let removed := db.diagnoses.filter fun d => d.checkup_id == cid
  { db with
    checkups := db.checkups.filter fun c => !(c.id == cid),
    diagnoses := db.diagnoses.filter fun d => !(d.checkup_id == cid),
    prescriptions := db.prescriptions.filter fun r => !(removed.any fun d => d.id == r.diagnosis_id) }

/-- Statement `DELETE FROM diagnoses WHERE id = did`, cascading to `prescriptions`. -/
def deleteDiagnosis (db : DB) (did : Nat) : DB :=
  { db with
    diagnoses := db.diagnoses.filter fun d => !(d.id == did),
    prescriptions := db.prescriptions.filter fun r => !(r.diagnosis_id == did) }

/-- Statement `DELETE FROM prescriptions WHERE id = rid`. -/
def deletePrescription (db : DB) (rid : Nat) : DB :=
  { db with prescriptions := db.prescriptions.filter fun r => !(r.id == rid) }

/-- The operations that can reach the store: the four authorized inserts, the
guarded prescription update, and the (UI-unexposed) deletes of downstream
records with their cascades. -/
inductive Op where
  | insPatient (actor : Nat) (row : PatientInsert) (now : Nat)
  | insCheckup (actor : Nat) (row : CheckupInsert) (now : Nat)
  | insDiagnosis (actor : Nat) (row : DiagnosisInsert) (now : Nat)
  | insPrescription (actor : Nat) (row : PrescriptionInsert) (now : Nat)
  | updPrescription (actor : Nat) (pid : Nat) (neu : Prescription) (now : Nat)
  | delCheckup (cid : Nat)
  | delDiagnosis (did : Nat)
  | delPrescription (rid : Nat)

/-- A failed statement leaves the store untouched (per-statement atomicity). -/
def applyResult (db : DB) : Except DbError DB → DB
  | .ok db' => db'
  | .error _ => db

/-- One client request against the store. -/
def step (db : DB) : Op → DB
  | .insPatient actor row now => applyResult db (insertPatient db actor row now)
  | .insCheckup actor row now => applyResult db (insertCheckup db actor row now)
  | .insDiagnosis actor row now => applyResult db (insertDiagnosis db actor row now)
  | .insPrescription actor row now => applyResult db (insertPrescription db actor row now)
  | .updPrescription actor pid neu now => applyResult db (updatePrescription db actor pid neu now)
  | .delCheckup cid => deleteCheckup db cid
  | .delDiagnosis did => deleteDiagnosis db did
  | .delPrescription rid => deletePrescription db rid

/-- A sequence of client requests. -/
def run (db : DB) (ops : List Op) : DB :=
  ops.foldl step db

/-- The stored `patients` row an accepted `insertPatient` appends. -/
def patientRow (row : PatientInsert) (now : Nat) : Patient :=
  { id := row.id, name := row.name, gender := row.gender, age := row.age,
    entry_datetime := now, status := row.status.getD .registered,
    created_by := row.created_by }

/-- The stored `checkups` row an accepted `insertCheckup` appends. -/
def checkupRow (row : CheckupInsert) (now : Nat) : Checkup :=
  { id := row.id, patient_id := row.patient_id,
    checkup_description := row.checkup_description,
    checkup_date := row.checkup_date.getD now, created_by := row.created_by,
    chief_complaint := row.chief_complaint,
    physical_examination := row.physical_examination, notes := row.notes }

/-- The stored `diagnoses` row an accepted `insertDiagnosis` appends. -/
def diagnosisRow (row : DiagnosisInsert) (now : Nat) : Diagnosis :=
  { id := row.id, checkup_id := row.checkup_id,
    diagnosis_description := row.diagnosis_description,
    diagnosis_datetime := row.diagnosis_datetime.getD now,
    created_by := row.created_by }

/-- The stored `prescriptions` row an accepted `insertPrescription` appends. -/
def prescriptionRow (row : PrescriptionInsert) (now : Nat) : Prescription :=
  { id := row.id, diagnosis_id := row.diagnosis_id,
    prescription_details := row.prescription_details,
    prescribed_datetime := row.prescribed_datetime.getD now,
    fulfilled := false, fulfilled_datetime := none, fulfilled_by := none,
    created_by := row.created_by, medication_id := row.medication_id,
    dosage := row.dosage, frequency := row.frequency, duration := row.duration,
    route := row.route, special_instructions := row.special_instructions }

/-- The CHECK-constraint facts about a stored patient row. -/
def patientValid (p : Patient) : Prop :=
  allowedGenders.contains p.gender = true ∧ 0 ≤ p.age ∧ p.age ≤ 150

instance patientValidDecidable (p : Patient) : Decidable (patientValid p) := by
  unfold patientValid
  infer_instance

/-- Pipeline order of the four statuses. -/
def statusRank : PatientStatus → Nat
  | .registered => 0
  | .checked => 1
  | .diagnosed => 2
  | .prescribed => 3


/-! A concrete walkthrough of the spec's scenario (§8)
Operations actor 1 registers Asha Rao; checkup, diagnosis and prescription
follow.  These stores witness the general theorems below. -/

def exDB0 : DB :=
  { profiles := [⟨1, .operations⟩, ⟨2, .doctor⟩, ⟨3, .pharmacist⟩],
    patients := [], checkups := [], diagnoses := [], prescriptions := [] }

def exAsha : PatientInsert := ⟨100, "Asha Rao", "female", 34, none, 1⟩

def exDB1 : DB := applyResult exDB0 (insertPatient exDB0 1 exAsha 10)

def exCk : CheckupInsert := ⟨200, 100, "fever, headache", none, 1, none, none, none⟩

def exDB2 : DB := applyResult exDB1 (insertCheckup exDB1 1 exCk 11)

def exDg : DiagnosisInsert := ⟨300, 200, "viral infection", none, 2⟩

def exDB3 : DB := applyResult exDB2 (insertDiagnosis exDB2 2 exDg 13)

def exDg2 : DiagnosisInsert := ⟨301, 200, "second opinion", none, 2⟩

def exRx : PrescriptionInsert :=
  ⟨400, 300, "paracetamol 500mg", none, 2, none, none, none, none, none, none⟩

def exDB4 : DB := applyResult exDB3 (insertPrescription exDB3 2 exRx 15)

def exRx2 : PrescriptionInsert :=
  ⟨401, 300, "ibuprofen 200mg", none, 2, none, none, none, none, none, none⟩

/-- The prescription row as stored after the doctor's insert. -/
def exOldRx : Prescription :=
  ⟨400, 300, "paracetamol 500mg", 15, false, none, none, 2, none, none, none, none, none, none⟩

/-- A pharmacist's proposed edit of the `dosage` column. -/
def exDosage : Prescription := { exOldRx with dosage := some "500mg twice daily" }

/-- A proposed edit of the `prescription_details` column. -/
def exBadDetails : Prescription := { exOldRx with prescription_details := "aspirin" }

/-- A fulfillment request carrying client-supplied stamp values. -/
def exFulfill : Prescription :=
  { exOldRx with fulfilled := true, fulfilled_datetime := some 999, fulfilled_by := some 77 }

/-- A prescription row that is already fulfilled (stamped at time 20 by
actor 3), as it would stand had the row been seeded outside the client
surface (e.g. by a service-role write that bypasses row-level security). -/
def exFulRx : Prescription :=
  { exFulfill with fulfilled_datetime := some 20, fulfilled_by := some 3 }

/-- A store holding the already-fulfilled prescription. -/
def exFulDB : DB := { exDB4 with prescriptions := [exFulRx] }

/-- A revert of `fulfilled` back to false, with client-supplied stamp values. -/
def exRevert : Prescription :=
  { exFulRx with fulfilled := false, fulfilled_datetime := some 5, fulfilled_by := some 9 }

/-- A patient insert that supplies an explicit non-initial status. -/
def exMallory : PatientInsert := ⟨101, "Mallory", "male", 40, some .prescribed, 2⟩

def exDBMal : DB := applyResult exDB0 (insertPatient exDB0 2 exMallory 10)

/-- A patient insert whose age violates the CHECK constraint. -/
def exBadAge : PatientInsert := ⟨102, "Methuselah", "male", 969, none, 1⟩

/-- Requests for the monotonicity walkthrough: checkup, diagnosis, then a
cascading delete of the checkup. -/
def exOps : List Op :=
  [.insCheckup 1 exCk 11, .insDiagnosis 2 exDg 13, .delCheckup 200]

/-- The patient row as stored right after registration. -/
def exP1 : Patient := ⟨100, "Asha Rao", "female", 34, 10, .registered, 1⟩


end EHR

namespace EHR

section ListLemmas

theorem find?_map_congr {α : Type} (g : α → α) (q : α → Bool)
    (h : ∀ a, q (g a) = q a) :
    ∀ l : List α, (l.map g).find? q = (l.find? q).map g := by
  intro l
  induction l with
  | nil => rfl
  | cons a t ih =>
      simp only [List.map_cons, List.find?_cons, h a]
      cases hq : q a
      · simpa [hq] using ih
      · simp [hq]

theorem find?_append_left {α : Type} (q : α → Bool) :
    ∀ (l l' : List α) (a : α), l.find? q = some a → (l ++ l').find? q = some a := by
  intro l l' a h
  induction l with
  | nil => simp [List.find?] at h
  | cons b t ih =>
      simp only [List.cons_append, List.find?_cons] at h ⊢
      cases hq : q b
      · simp only [hq] at h ⊢
        exact ih h
      · simp only [hq] at h ⊢
        exact h

theorem find?_isSome_of_any {α : Type} (q : α → Bool) :
    ∀ l : List α, l.any q = true → ∃ a, l.find? q = some a := by
  intro l h
  induction l with
  | nil => simp at h
  | cons b t ih =>
      simp only [List.find?_cons]
      cases hq : q b
      · simp only [List.any_cons, hq, Bool.false_or] at h
        exact ih h
      · exact ⟨b, rfl⟩

end ListLemmas

theorem setStatusIf_id (pre post : PatientStatus) (t : Nat) (p : Patient) :
    (setStatusIf pre post t p).id = p.id := by
  unfold setStatusIf
  split <;> rfl

theorem setStatusIf_rank (pre post : PatientStatus) (t : Nat) (p : Patient)
    (h : statusRank pre ≤ statusRank post) :
    statusRank p.status ≤ statusRank (setStatusIf pre post t p).status := by
  unfold setStatusIf
  split
  · next hc =>
      have hs : p.status = pre := by
        have := (Bool.and_eq_true _ _).mp hc |>.2
        simpa using this
      simpa [hs] using h
  · exact le_refl _

/-- Reading `findPatient` after a status-update pass: the looked-up row is the mapped row. -/
theorem findPatient_map_setStatusIf (l : List Patient) (pre post : PatientStatus)
    (t pid : Nat) :
    (l.map (setStatusIf pre post t)).find? (fun p => p.id == pid) =
      (l.find? fun p => p.id == pid).map (setStatusIf pre post t) :=
  find?_map_congr _ _ (fun p => by rw [setStatusIf_id]) l

end EHR
namespace EHR

/-- Elimination form of a successful patient insert: all guards passed and the
new store is the old one with the fresh row appended. -/
theorem insertPatient_ok_elim (db : DB) (a : Nat) (row : PatientInsert) (now : Nat)
    (db' : DB) (h : insertPatient db a row now = .ok db') :
    hasRole db a [.doctor, .operations] = true ∧
    allowedGenders.contains row.gender = true ∧
    ¬(row.age < 0 ∨ row.age > 150) ∧
    (db.patients.any fun p => p.id == row.id) = false ∧
    db' = { db with patients := db.patients ++ [patientRow row now] } := by
  simp only [insertPatient] at h
  split at h
  · exact Except.noConfusion h
  split at h
  · exact Except.noConfusion h
  split at h
  · exact Except.noConfusion h
  split at h
  · exact Except.noConfusion h
  next h1 h2 h3 h4 =>
    injection h with h'
    subst h'
    refine ⟨?_, ?_, ?_, ?_, rfl⟩
    · revert h1
      cases hasRole db a [.doctor, .operations] <;> simp
    · revert h2
      cases allowedGenders.contains row.gender <;> simp
    · simpa using h3
    · revert h4
      cases db.patients.any (fun p => p.id == row.id) <;> simp

end EHR
namespace EHR

/-- Elimination form of a successful checkup insert. -/
theorem insertCheckup_ok_elim (db : DB) (a : Nat) (row : CheckupInsert) (now : Nat)
    (db' : DB) (h : insertCheckup db a row now = .ok db') :
    hasRole db a [.doctor, .operations] = true ∧
    (db.patients.any fun p => p.id == row.patient_id) = true ∧
    (db.checkups.any fun c =>
      c.patient_id == row.patient_id && c.checkup_date == row.checkup_date.getD now) = false ∧
    (db.checkups.any fun c => c.id == row.id) = false ∧
    db' = update_patient_status_on_checkup
      { db with checkups := db.checkups ++ [checkupRow row now] } a row.patient_id := by
  simp only [insertCheckup] at h
  split at h
  · exact Except.noConfusion h
  split at h
  · exact Except.noConfusion h
  split at h
  · exact Except.noConfusion h
  split at h
  · exact Except.noConfusion h
  next h1 h2 h3 h4 =>
    injection h with h'
    subst h'
    refine ⟨?_, ?_, ?_, ?_, rfl⟩
    · revert h1
      cases hasRole db a [.doctor, .operations] <;> simp
    · revert h2
      cases db.patients.any (fun p => p.id == row.patient_id) <;> simp
    · revert h3
      cases db.checkups.any
        (fun c => c.patient_id == row.patient_id && c.checkup_date == row.checkup_date.getD now) <;> simp
    · revert h4
      cases db.checkups.any (fun c => c.id == row.id) <;> simp

/-- Elimination form of a successful diagnosis insert. -/
theorem insertDiagnosis_ok_elim (db : DB) (a : Nat) (row : DiagnosisInsert) (now : Nat)
    (db' : DB) (h : insertDiagnosis db a row now = .ok db') :
    hasRole db a [.doctor] = true ∧
    (db.checkups.any fun c => c.id == row.checkup_id) = true ∧
    (db.diagnoses.any fun d => d.checkup_id == row.checkup_id) = false ∧
    (db.diagnoses.any fun d => d.id == row.id) = false ∧
    db' = update_patient_status_on_diagnosis
      { db with diagnoses := db.diagnoses ++ [diagnosisRow row now] } a row.checkup_id := by
  simp only [insertDiagnosis] at h
  split at h
  · exact Except.noConfusion h
  split at h
  · exact Except.noConfusion h
  split at h
  · exact Except.noConfusion h
  split at h
  · exact Except.noConfusion h
  next h1 h2 h3 h4 =>
    injection h with h'
    subst h'
    refine ⟨?_, ?_, ?_, ?_, rfl⟩
    · revert h1
      cases hasRole db a [.doctor] <;> simp
    · revert h2
      cases db.checkups.any (fun c => c.id == row.checkup_id) <;> simp
    · revert h3
      cases db.diagnoses.any (fun d => d.checkup_id == row.checkup_id) <;> simp
    · revert h4
      cases db.diagnoses.any (fun d => d.id == row.id) <;> simp

/-- Elimination form of a successful prescription insert. -/
theorem insertPrescription_ok_elim (db : DB) (a : Nat) (row : PrescriptionInsert) (now : Nat)
    (db' : DB) (h : insertPrescription db a row now = .ok db') :
    hasRole db a [.doctor] = true ∧
    (db.diagnoses.any fun d => d.id == row.diagnosis_id) = true ∧
    (db.prescriptions.any fun r => r.diagnosis_id == row.diagnosis_id) = false ∧
    (db.prescriptions.any fun r => r.id == row.id) = false ∧
    db' = update_patient_status_on_prescription
      { db with prescriptions := db.prescriptions ++ [prescriptionRow row now] } a row.diagnosis_id := by
  simp only [insertPrescription] at h
  split at h
  · exact Except.noConfusion h
  split at h
  · exact Except.noConfusion h
  split at h
  · exact Except.noConfusion h
  split at h
  · exact Except.noConfusion h
  next h1 h2 h3 h4 =>
    injection h with h'
    subst h'
    refine ⟨?_, ?_, ?_, ?_, rfl⟩
    · revert h1
      cases hasRole db a [.doctor] <;> simp
    · revert h2
      cases db.diagnoses.any (fun d => d.id == row.diagnosis_id) <;> simp
    · revert h3
      cases db.prescriptions.any (fun r => r.diagnosis_id == row.diagnosis_id) <;> simp
    · revert h4
      cases db.prescriptions.any (fun r => r.id == row.id) <;> simp

end EHR
namespace EHR

/-- Under row-level security no patient row is visible to an UPDATE, so any
status-update pass over the patients table is the identity. -/
theorem patients_map_gated (db2 : DB) (uid : Nat) (g : Patient → Patient) :
    ∀ l : List Patient,
      (l.map fun p => if patientsUpdateVisible db2 uid p then g p else p) = l := by
  intro l
  induction l with
  | nil => rfl
  | cons a t ih => simp [patientsUpdateVisible, ih]

/-- The checkup branch of the status trigger leaves the patients table
unchanged: its UPDATE matches zero rows. -/
theorem update_on_checkup_patients (db : DB) (uid t : Nat) :
    (update_patient_status_on_checkup db uid t).patients = db.patients :=
  patients_map_gated db uid _ db.patients

/-- The diagnosis branch of the status trigger leaves the patients table
unchanged: its UPDATE matches zero rows. -/
theorem update_on_diagnosis_patients (db : DB) (uid t : Nat) :
    (update_patient_status_on_diagnosis db uid t).patients = db.patients := by
  unfold update_patient_status_on_diagnosis
  split
  · rfl
  · exact patients_map_gated db uid _ db.patients

/-- The prescription branch of the status trigger leaves the patients table
unchanged: its UPDATE matches zero rows. -/
theorem update_on_prescription_patients (db : DB) (uid t : Nat) :
    (update_patient_status_on_prescription db uid t).patients = db.patients := by
  unfold update_patient_status_on_prescription
  split
  · rfl
  · split
    · rfl
    · exact patients_map_gated db uid _ db.patients

/-- A successful checkup insert leaves the patients table unchanged: the
AFTER INSERT trigger fires but its UPDATE matches zero rows. -/
theorem insertCheckup_ok_patients (db : DB) (a : Nat) (row : CheckupInsert) (now : Nat)
    (db' : DB) (h : insertCheckup db a row now = .ok db') :
    db'.patients = db.patients := by
  obtain ⟨-, -, -, -, hdb⟩ := insertCheckup_ok_elim db a row now db' h
  subst hdb
  exact update_on_checkup_patients _ _ _

/-- A successful diagnosis insert leaves the patients table unchanged: the
AFTER INSERT trigger fires but its UPDATE matches zero rows. -/
theorem insertDiagnosis_ok_patients (db : DB) (a : Nat) (row : DiagnosisInsert) (now : Nat)
    (db' : DB) (h : insertDiagnosis db a row now = .ok db') :
    db'.patients = db.patients := by
  obtain ⟨-, -, -, -, hdb⟩ := insertDiagnosis_ok_elim db a row now db' h
  subst hdb
  exact update_on_diagnosis_patients _ _ _

/-- A successful prescription insert leaves the patients table unchanged: the
AFTER INSERT trigger fires but its UPDATE matches zero rows. -/
theorem insertPrescription_ok_patients (db : DB) (a : Nat) (row : PrescriptionInsert)
    (now : Nat) (db' : DB) (h : insertPrescription db a row now = .ok db') :
    db'.patients = db.patients := by
  obtain ⟨-, -, -, -, hdb⟩ := insertPrescription_ok_elim db a row now db' h
  subst hdb
  exact update_on_prescription_patients _ _ _

end EHR
namespace EHR

/-- An actor without the pharmacist role is rejected by the fulfillment guard. -/
theorem cpu_auth_of (db : DB) (uid : Nat) (old neu : Prescription) (now : Nat)
    (h1 : hasRole db uid [.pharmacist] = false) :
    check_prescription_update db uid old neu now = .error .authorizationError := by
  simp [check_prescription_update, h1]

/-- With the pharmacist role and all guarded columns unchanged, the guard
accepts, stamping exactly on the false→true flip of `fulfilled`. -/
theorem cpu_ok_of (db : DB) (uid : Nat) (old neu : Prescription) (now : Nat)
    (h1 : hasRole db uid [.pharmacist] = true)
    (h2 : neu.prescription_details = old.prescription_details)
    (h3 : neu.diagnosis_id = old.diagnosis_id)
    (h4 : neu.prescribed_datetime = old.prescribed_datetime)
    (h5 : neu.created_by = old.created_by) :
    check_prescription_update db uid old neu now =
      (if neu.fulfilled && !old.fulfilled then
        .ok { neu with fulfilled_datetime := some now, fulfilled_by := some uid }
      else .ok neu) := by
  simp [check_prescription_update, h1, h2, h3, h4, h5]

/-- With the pharmacist role, the guard raises "Only fulfillment status can be
updated" exactly when one of the four guarded columns differs from OLD. -/
theorem cpu_immutable_iff (db : DB) (uid : Nat) (old neu : Prescription) (now : Nat)
    (h1 : hasRole db uid [.pharmacist] = true) :
    check_prescription_update db uid old neu now = .error .immutableFieldError ↔
      (neu.prescription_details ≠ old.prescription_details ∨
       neu.diagnosis_id ≠ old.diagnosis_id ∨
       neu.prescribed_datetime ≠ old.prescribed_datetime ∨
       neu.created_by ≠ old.created_by) := by
  simp only [check_prescription_update, h1, Bool.not_true, Bool.false_eq_true, if_false]
  split
  · next hcond =>
      simp only [true_iff]
      revert hcond
      simp [bne]
      tauto
  · next hcond =>
      constructor
      · intro h
        split at h <;> exact Except.noConfusion h
      · intro hOr
        exfalso
        apply hcond
        simp [bne]
        tauto

end EHR
namespace EHR

/-- Every client UPDATE on `prescriptions` is a silent no-op: row-level
security is enabled with no UPDATE policy, so the statement matches zero rows,
completes without error, and never reaches `check_prescription_update`. -/
theorem updatePrescription_noop (db : DB) (actor pid : Nat) (neu : Prescription)
    (now : Nat) :
    updatePrescription db actor pid neu now = .ok db := by
  unfold updatePrescription
  have hnone : db.prescriptions.find?
      (fun r => prescriptionsUpdateVisible db actor r && r.id == pid) = none :=
    List.find?_eq_none.mpr (fun r _ => by simp [prescriptionsUpdateVisible])
  rw [hnone]

/-- Operation `insertPatient` raises the authorization error exactly when the actor is
neither a doctor nor operations staff. -/
theorem insertPatient_authError_iff (db : DB) (a : Nat) (row : PatientInsert) (now : Nat) :
    insertPatient db a row now = .error .authorizationError ↔
      hasRole db a [.doctor, .operations] = false := by
  cases h1 : hasRole db a [.doctor, .operations]
  · simp [insertPatient, h1]
  · simp only [h1, Bool.true_eq_false, iff_false]
    intro h
    simp only [insertPatient, h1, Bool.not_true, Bool.false_eq_true, if_false] at h
    split at h <;> (try split at h) <;> (try split at h) <;> simp_all

theorem insertCheckup_authError_iff (db : DB) (a : Nat) (row : CheckupInsert) (now : Nat) :
    insertCheckup db a row now = .error .authorizationError ↔
      hasRole db a [.doctor, .operations] = false := by
  cases h1 : hasRole db a [.doctor, .operations]
  · simp [insertCheckup, h1]
  · simp only [h1, Bool.true_eq_false, iff_false]
    intro h
    simp only [insertCheckup, h1, Bool.not_true, Bool.false_eq_true, if_false] at h
    split at h <;> (try split at h) <;> (try split at h) <;> simp_all

theorem insertDiagnosis_authError_iff (db : DB) (a : Nat) (row : DiagnosisInsert) (now : Nat) :
    insertDiagnosis db a row now = .error .authorizationError ↔
      hasRole db a [.doctor] = false := by
  cases h1 : hasRole db a [.doctor]
  · simp [insertDiagnosis, h1]
  · simp only [h1, Bool.true_eq_false, iff_false]
    intro h
    simp only [insertDiagnosis, h1, Bool.not_true, Bool.false_eq_true, if_false] at h
    split at h <;> (try split at h) <;> (try split at h) <;> simp_all

theorem insertPrescription_authError_iff (db : DB) (a : Nat) (row : PrescriptionInsert) (now : Nat) :
    insertPrescription db a row now = .error .authorizationError ↔
      hasRole db a [.doctor] = false := by
  cases h1 : hasRole db a [.doctor]
  · simp [insertPrescription, h1]
  · simp only [h1, Bool.true_eq_false, iff_false]
    intro h
    simp only [insertPrescription, h1, Bool.not_true, Bool.false_eq_true, if_false] at h
    split at h <;> (try split at h) <;> (try split at h) <;> simp_all

end EHR
namespace EHR

/-- Success of a checkup insert is equivalent to: authorized role, existing
parent patient, no `(patient_id, checkup_date)` collision, fresh primary key —
the owning patient's current status plays no part. -/
theorem insertCheckup_isOk_iff (db : DB) (a : Nat) (row : CheckupInsert) (now : Nat) :
    (insertCheckup db a row now).isOk = true ↔
      (hasRole db a [.doctor, .operations] = true ∧
       (db.patients.any fun p => p.id == row.patient_id) = true ∧
       (db.checkups.any fun c =>
         c.patient_id == row.patient_id && c.checkup_date == row.checkup_date.getD now) = false ∧
       (db.checkups.any fun c => c.id == row.id) = false) := by
  cases h1 : hasRole db a [.doctor, .operations] <;>
    cases h2 : db.patients.any (fun p => p.id == row.patient_id) <;>
      cases h3 : db.checkups.any
        (fun c => c.patient_id == row.patient_id && c.checkup_date == row.checkup_date.getD now) <;>
        cases h4 : db.checkups.any (fun c => c.id == row.id) <;>
          simp [insertCheckup, h1, h2, h3, h4, Except.isOk, Except.toBool]

/-- Success of a diagnosis insert is equivalent to: doctor role, existing
parent checkup, no diagnosis yet for that checkup, fresh primary key. -/
theorem insertDiagnosis_isOk_iff (db : DB) (a : Nat) (row : DiagnosisInsert) (now : Nat) :
    (insertDiagnosis db a row now).isOk = true ↔
      (hasRole db a [.doctor] = true ∧
       (db.checkups.any fun c => c.id == row.checkup_id) = true ∧
       (db.diagnoses.any fun d => d.checkup_id == row.checkup_id) = false ∧
       (db.diagnoses.any fun d => d.id == row.id) = false) := by
  cases h1 : hasRole db a [.doctor] <;>
    cases h2 : db.checkups.any (fun c => c.id == row.checkup_id) <;>
      cases h3 : db.diagnoses.any (fun d => d.checkup_id == row.checkup_id) <;>
        cases h4 : db.diagnoses.any (fun d => d.id == row.id) <;>
          simp [insertDiagnosis, h1, h2, h3, h4, Except.isOk, Except.toBool]

/-- Success of a prescription insert is equivalent to: doctor role, existing
parent diagnosis, no prescription yet for that diagnosis, fresh primary key. -/
theorem insertPrescription_isOk_iff (db : DB) (a : Nat) (row : PrescriptionInsert) (now : Nat) :
    (insertPrescription db a row now).isOk = true ↔
      (hasRole db a [.doctor] = true ∧
       (db.diagnoses.any fun d => d.id == row.diagnosis_id) = true ∧
       (db.prescriptions.any fun r => r.diagnosis_id == row.diagnosis_id) = false ∧
       (db.prescriptions.any fun r => r.id == row.id) = false) := by
  cases h1 : hasRole db a [.doctor] <;>
    cases h2 : db.diagnoses.any (fun d => d.id == row.diagnosis_id) <;>
      cases h3 : db.prescriptions.any (fun r => r.diagnosis_id == row.diagnosis_id) <;>
        cases h4 : db.prescriptions.any (fun r => r.id == row.id) <;>
          simp [insertPrescription, h1, h2, h3, h4, Except.isOk, Except.toBool]

/-- A diagnosis insert against a checkup that already has one fails with the
uniqueness violation. -/
theorem insertDiagnosis_dup (db : DB) (a : Nat) (row : DiagnosisInsert) (now : Nat)
    (h1 : hasRole db a [.doctor] = true)
    (h2 : (db.checkups.any fun c => c.id == row.checkup_id) = true)
    (h3 : (db.diagnoses.any fun d => d.checkup_id == row.checkup_id) = true) :
    insertDiagnosis db a row now = .error .duplicateError := by
  simp [insertDiagnosis, h1, h2, h3]

/-- A prescription insert against a diagnosis that already has one fails with
the uniqueness violation. -/
theorem insertPrescription_dup (db : DB) (a : Nat) (row : PrescriptionInsert) (now : Nat)
    (h1 : hasRole db a [.doctor] = true)
    (h2 : (db.diagnoses.any fun d => d.id == row.diagnosis_id) = true)
    (h3 : (db.prescriptions.any fun r => r.diagnosis_id == row.diagnosis_id) = true) :
    insertPrescription db a row now = .error .duplicateError := by
  simp [insertPrescription, h1, h2, h3]

/-- The status trigger only writes the `patients` table. -/
theorem update_on_checkup_tables (db : DB) (uid t : Nat) :
    (update_patient_status_on_checkup db uid t).profiles = db.profiles ∧
    (update_patient_status_on_checkup db uid t).checkups = db.checkups ∧
    (update_patient_status_on_checkup db uid t).diagnoses = db.diagnoses ∧
    (update_patient_status_on_checkup db uid t).prescriptions = db.prescriptions :=
  ⟨rfl, rfl, rfl, rfl⟩

theorem update_on_diagnosis_tables (db : DB) (uid t : Nat) :
    (update_patient_status_on_diagnosis db uid t).profiles = db.profiles ∧
    (update_patient_status_on_diagnosis db uid t).checkups = db.checkups ∧
    (update_patient_status_on_diagnosis db uid t).diagnoses = db.diagnoses ∧
    (update_patient_status_on_diagnosis db uid t).prescriptions = db.prescriptions := by
  unfold update_patient_status_on_diagnosis
  split <;> exact ⟨rfl, rfl, rfl, rfl⟩

theorem update_on_prescription_tables (db : DB) (uid t : Nat) :
    (update_patient_status_on_prescription db uid t).profiles = db.profiles ∧
    (update_patient_status_on_prescription db uid t).checkups = db.checkups ∧
    (update_patient_status_on_prescription db uid t).diagnoses = db.diagnoses ∧
    (update_patient_status_on_prescription db uid t).prescriptions = db.prescriptions := by
  unfold update_patient_status_on_prescription
  split
  · exact ⟨rfl, rfl, rfl, rfl⟩
  · split <;> exact ⟨rfl, rfl, rfl, rfl⟩

end EHR
namespace EHR

/-- A status-update pass touches only the `status` field of a row. -/
theorem setStatusIf_eq_withStatus (pre post : PatientStatus) (t : Nat) (p : Patient) :
    ∃ s, setStatusIf pre post t p = { p with status := s } := by
  unfold setStatusIf
  split
  · exact ⟨post, rfl⟩
  · exact ⟨p.status, rfl⟩

/-- The status-update pass, written as the claim reads: advance exactly when
this row is the targeted patient and sits at the expected preceding state. -/
theorem setStatusIf_as_ite (pre post : PatientStatus) (t : Nat) (p : Patient) (pid : Nat)
    (hid : p.id = pid) :
    setStatusIf pre post t p =
      { p with status := if pid = t ∧ p.status = pre then post else p.status } := by
  subst hid
  unfold setStatusIf
  by_cases h1 : p.id = t <;> by_cases h2 : p.status = pre
  · rw [if_pos (by simp [h1, h2]), if_pos ⟨h1, h2⟩]
  · rw [if_neg (by simp [h1, h2]), if_neg (by tauto)]
  · rw [if_neg (by simp [h1, h2]), if_neg (by tauto)]
  · rw [if_neg (by simp [h1, h2]), if_neg (by tauto)]

theorem find?_eq_none_of_any_false {α : Type} (q : α → Bool) :
    ∀ l : List α, l.any q = false → l.find? q = none := by
  intro l h
  induction l with
  | nil => rfl
  | cons b t ih =>
      simp only [List.any_cons, Bool.or_eq_false_iff] at h
      simp only [List.find?_cons, h.1]
      exact ih h.2

theorem find?_append_new {α : Type} (q : α → Bool) (l : List α) (x : α)
    (hl : l.any q = false) (hx : q x = true) : (l ++ [x]).find? q = some x := by
  induction l with
  | nil => simp [List.find?_cons, hx]
  | cons b t ih =>
      simp only [List.any_cons, Bool.or_eq_false_iff] at hl
      simp only [List.cons_append, List.find?_cons, hl.1]
      exact ih hl.2

/-- Elimination form of an accepted guard run: the actor is a pharmacist and
the output row is NEW, stamped exactly on the false→true flip. -/
theorem cpu_ok_elim (db : DB) (uid : Nat) (old neu : Prescription) (now : Nat)
    (stamped : Prescription)
    (h : check_prescription_update db uid old neu now = .ok stamped) :
    hasRole db uid [.pharmacist] = true ∧
    stamped = (if neu.fulfilled && !old.fulfilled then
      { neu with fulfilled_datetime := some now, fulfilled_by := some uid } else neu) := by
  simp only [check_prescription_update] at h
  split at h
  · exact Except.noConfusion h
  next h1 =>
    split at h
    · exact Except.noConfusion h
    next h2 =>
      constructor
      · revert h1
        cases hasRole db uid [.pharmacist] <;> simp
      · split at h
        · next hflip =>
            injection h with h'
            subst h'
            rw [if_pos hflip]
        · next hflip =>
            injection h with h'
            subst h'
            rw [if_neg hflip]

end EHR
namespace EHR

/-- Each single request can only keep or advance a given patient's status (in
fact only a patient insert changes the table at all). -/
theorem step_findPatient_mono (db : DB) (op : Op) (pid : Nat) (p : Patient)
    (h : findPatient db pid = some p) :
    ∃ p', findPatient (step db op) pid = some p' ∧
      statusRank p.status ≤ statusRank p'.status := by
  cases op with
  | insPatient a row now =>
      cases hr : insertPatient db a row now with
      | error e =>
          refine ⟨p, ?_, le_refl _⟩
          simp only [step, applyResult, hr]
          exact h
      | ok db' =>
          obtain ⟨-, -, -, -, hdb⟩ := insertPatient_ok_elim db a row now db' hr
          subst hdb
          refine ⟨p, ?_, le_refl _⟩
          simp only [step, applyResult, hr]
          unfold findPatient at h ⊢
          exact find?_append_left _ _ _ _ h
  | insCheckup a row now =>
      cases hr : insertCheckup db a row now with
      | error e =>
          refine ⟨p, ?_, le_refl _⟩
          simp only [step, applyResult, hr]
          exact h
      | ok db' =>
          refine ⟨p, ?_, le_refl _⟩
          simp only [step, applyResult, hr]
          unfold findPatient at h ⊢
          rw [insertCheckup_ok_patients db a row now db' hr]
          exact h
  | insDiagnosis a row now =>
      cases hr : insertDiagnosis db a row now with
      | error e =>
          refine ⟨p, ?_, le_refl _⟩
          simp only [step, applyResult, hr]
          exact h
      | ok db' =>
          refine ⟨p, ?_, le_refl _⟩
          simp only [step, applyResult, hr]
          unfold findPatient at h ⊢
          rw [insertDiagnosis_ok_patients db a row now db' hr]
          exact h
  | insPrescription a row now =>
      cases hr : insertPrescription db a row now with
      | error e =>
          refine ⟨p, ?_, le_refl _⟩
          simp only [step, applyResult, hr]
          exact h
      | ok db' =>
          refine ⟨p, ?_, le_refl _⟩
          simp only [step, applyResult, hr]
          unfold findPatient at h ⊢
          rw [insertPrescription_ok_patients db a row now db' hr]
          exact h
  | updPrescription a rid neu now =>
      refine ⟨p, ?_, le_refl _⟩
      simp only [step, updatePrescription_noop, applyResult]
      exact h
  | delCheckup cid => exact ⟨p, h, le_refl _⟩
  | delDiagnosis did => exact ⟨p, h, le_refl _⟩
  | delPrescription rid => exact ⟨p, h, le_refl _⟩

/-- Every request preserves "all stored patient rows satisfy the CHECKs". -/
theorem step_preserves_patientValid (db : DB) (op : Op)
    (hall : ∀ p ∈ db.patients, patientValid p) :
    ∀ p ∈ (step db op).patients, patientValid p := by
  cases op with
  | insPatient a row now =>
      cases hr : insertPatient db a row now with
      | error e =>
          simp only [step, applyResult, hr]
          exact hall
      | ok db' =>
          obtain ⟨-, hg, hage, -, hdb⟩ := insertPatient_ok_elim db a row now db' hr
          subst hdb
          simp only [step, applyResult, hr]
          intro p hp
          rcases List.mem_append.mp hp with hp | hp
          · exact hall p hp
          · have : p = patientRow row now := by simpa using hp
            subst this
            refine ⟨hg, ?_, ?_⟩ <;> simp only [patientRow] <;> omega
  | insCheckup a row now =>
      cases hr : insertCheckup db a row now with
      | error e =>
          simp only [step, applyResult, hr]
          exact hall
      | ok db' =>
          simp only [step, applyResult, hr]
          rw [insertCheckup_ok_patients db a row now db' hr]
          exact hall
  | insDiagnosis a row now =>
      cases hr : insertDiagnosis db a row now with
      | error e =>
          simp only [step, applyResult, hr]
          exact hall
      | ok db' =>
          simp only [step, applyResult, hr]
          rw [insertDiagnosis_ok_patients db a row now db' hr]
          exact hall
  | insPrescription a row now =>
      cases hr : insertPrescription db a row now with
      | error e =>
          simp only [step, applyResult, hr]
          exact hall
      | ok db' =>
          simp only [step, applyResult, hr]
          rw [insertPrescription_ok_patients db a row now db' hr]
          exact hall
  | updPrescription a rid neu now =>
      simp only [step, updatePrescription_noop, applyResult]
      exact hall
  | delCheckup cid => exact hall
  | delDiagnosis did => exact hall
  | delPrescription rid => exact hall

end EHR
namespace EHR

/-- C4: an insert into patients/checkups/diagnoses/prescriptions fails with
the authorization error exactly when the acting role is outside the table's
allowed set (patients and checkups: doctor or operations; diagnoses and
prescriptions: doctor only); an authorization failure returns an error and
therefore persists nothing. -/
theorem claim4_insert_authorization :
    (∀ (db : DB) (a : Nat) (row : PatientInsert) (now : Nat),
      insertPatient db a row now = .error .authorizationError ↔
        hasRole db a [.doctor, .operations] = false) ∧
    (∀ (db : DB) (a : Nat) (row : CheckupInsert) (now : Nat),
      insertCheckup db a row now = .error .authorizationError ↔
        hasRole db a [.doctor, .operations] = false) ∧
    (∀ (db : DB) (a : Nat) (row : DiagnosisInsert) (now : Nat),
      insertDiagnosis db a row now = .error .authorizationError ↔
        hasRole db a [.doctor] = false) ∧
    (∀ (db : DB) (a : Nat) (row : PrescriptionInsert) (now : Nat),
      insertPrescription db a row now = .error .authorizationError ↔
        hasRole db a [.doctor] = false) :=
  ⟨insertPatient_authError_iff, insertCheckup_authError_iff,
   insertDiagnosis_authError_iff, insertPrescription_authError_iff⟩

/-- C2 (code bug): an update changing `prescription_details` does not fail for
any actor — with row-level security enabled and no UPDATE policy on
`prescriptions`, the statement matches zero rows and completes without error,
leaving the store unchanged; the guard trigger's column comparison is never
reached.  The same holds for the dosage edit. -/
theorem claim2_update_silently_ignored :
    findPrescription exDB4 400 = some exOldRx ∧
    exBadDetails.prescription_details ≠ exOldRx.prescription_details ∧
    updatePrescription exDB4 3 400 exBadDetails 20 = .ok exDB4 ∧
    updatePrescription exDB4 2 400 exBadDetails 20 = .ok exDB4 ∧
    exDosage.dosage ≠ exOldRx.dosage ∧
    updatePrescription exDB4 3 400 exDosage 20 = .ok exDB4 :=
  ⟨by rfl, by decide, by rfl, by rfl, by decide, by rfl⟩

/-- C3 counterexample: the insert policy does not constrain the `status`
column, so a doctor's insert supplying `status = 'prescribed'` succeeds and
stores a freshly created patient that is not at `'registered'`, refuting
"no client-issued insert can place a Patient at a status other than the one
derived from its downstream records". -/
theorem claim3_counterexample :
    insertPatient exDB0 2 exMallory 10 = .ok exDBMal ∧
    findPatient exDBMal 101 = some (patientRow exMallory 10) ∧
    (patientRow exMallory 10).status = .prescribed :=
  ⟨by rfl, by rfl, by rfl⟩

/-- C3 (amended): a successful patient insert stores the row with status
`row.status` when the client supplies one and `'registered'` otherwise — the
default, not a guarantee; no other operation gives clients access to
`status`. -/
theorem claim3_insert_status_default :
    ∀ (db : DB) (a : Nat) (row : PatientInsert) (now : Nat) (db' : DB),
    insertPatient db a row now = .ok db' →
    findPatient db' row.id = some (patientRow row now) ∧
    (patientRow row now).status = row.status.getD .registered := by
  intro db a row now db' h
  obtain ⟨-, -, -, hpk, hdb⟩ := insertPatient_ok_elim db a row now db' h
  subst hdb
  constructor
  · unfold findPatient
    exact find?_append_new _ _ _ hpk (by simp [patientRow])
  · rfl

/-- C3 witness: the scenario's registration omits `status` and the stored row
is at `'registered'`. -/
theorem claim3_witness :
    insertPatient exDB0 1 exAsha 10 = .ok exDB1 ∧
    findPatient exDB1 100 = some (patientRow exAsha 10) ∧
    (patientRow exAsha 10).status = exAsha.status.getD .registered :=
  ⟨by rfl,
   (claim3_insert_status_default exDB0 1 exAsha 10 exDB1 (by rfl)).1,
   (claim3_insert_status_default exDB0 1 exAsha 10 exDB1 (by rfl)).2⟩

end EHR
namespace EHR

/-- C5 (code bug): no prescription update is ever rejected or applied — with
row-level security enabled and no UPDATE policy, a doctor's attempt to flip
`fulfilled` completes without any authorization error, and a pharmacist's
identical attempt matches zero rows, so the flip never lands: the stored row
still has `fulfilled = false`. -/
theorem claim5_update_never_reaches_guard :
    updatePrescription exDB4 2 400 exFulfill 20 = .ok exDB4 ∧
    updatePrescription exDB4 3 400 exFulfill 20 = .ok exDB4 ∧
    findPrescription exDB4 400 = some exOldRx ∧
    exOldRx.fulfilled = false :=
  ⟨by rfl, by rfl, by rfl, by rfl⟩

/-- C6 (code bug): no prescription update is ever accepted — every update
returns the store unchanged — so the stamping branch of
`check_prescription_update` never runs: after the pharmacist's fulfillment
attempt the row still has `fulfilled = false` and empty stamp fields. -/
theorem claim6_no_update_accepted :
    (∀ (db : DB) (actor pid : Nat) (neu : Prescription) (now : Nat),
      updatePrescription db actor pid neu now = .ok db) ∧
    updatePrescription exDB4 3 400 exFulfill 20 = .ok exDB4 ∧
    findPrescription exDB4 400 = some exOldRx ∧
    exOldRx.fulfilled = false ∧
    exOldRx.fulfilled_datetime = none ∧
    exOldRx.fulfilled_by = none :=
  ⟨updatePrescription_noop, by rfl, by rfl, by rfl, by rfl, by rfl⟩

/-- C10 counterexample: starting from a store holding an already-fulfilled
prescription, a pharmacist's revert to `fulfilled = false` carrying
client-supplied stamp values completes without error but persists nothing:
the stored row is unchanged, refuting "a revert or a direct edit of the stamp
fields persists the client-supplied values". -/
theorem claim10_counterexample :
    hasRole exFulDB 3 [.pharmacist] = true ∧
    exFulRx.fulfilled = true ∧
    exRevert.fulfilled = false ∧
    updatePrescription exFulDB 3 400 exRevert 30 = .ok exFulDB ∧
    findPrescription exFulDB 400 = some exFulRx ∧
    exFulRx ≠ exRevert :=
  ⟨by rfl, by rfl, by rfl, by rfl, by rfl, by decide⟩

/-- C10 (amended): a pharmacist's revert or stamp-field-only edit draws no
error and no restamping, but nothing persists either: with row-level security
enabled and no UPDATE policy the statement matches zero rows, the guard
trigger never runs, and the store is returned unchanged — the client-supplied
values are discarded. -/
theorem claim10_revert_silently_dropped :
    ∀ (db : DB) (actor pid : Nat) (neu : Prescription) (now : Nat),
    updatePrescription db actor pid neu now = .ok db :=
  fun db actor pid neu now => updatePrescription_noop db actor pid neu now

/-- C1 (code bug): the status transition never fires in the program.
`update_patient_status` is SECURITY INVOKER and `patients` has row-level
security enabled with no UPDATE policy, so the trigger's UPDATE matches zero
rows: a successful insert into checkups, diagnoses or prescriptions leaves
the patients table entirely unchanged — concretely, inserting a checkup for
the freshly registered patient succeeds yet the status stays "registered"
instead of advancing to "checked". -/
theorem claim1_transition_never_fires :
    (∀ (db : DB) (a : Nat) (row : CheckupInsert) (now : Nat),
      (step db (.insCheckup a row now)).patients = db.patients) ∧
    (∀ (db : DB) (a : Nat) (row : DiagnosisInsert) (now : Nat),
      (step db (.insDiagnosis a row now)).patients = db.patients) ∧
    (∀ (db : DB) (a : Nat) (row : PrescriptionInsert) (now : Nat),
      (step db (.insPrescription a row now)).patients = db.patients) ∧
    insertCheckup exDB1 1 exCk 11 = .ok exDB2 ∧
    findPatient exDB1 100 = some exP1 ∧
    exP1.status = .registered ∧
    findPatient exDB2 100 = some exP1 := by
  refine ⟨?_, ?_, ?_, by rfl, by rfl, by rfl, by rfl⟩
  · intro db a row now
    cases hr : insertCheckup db a row now with
    | error e => simp only [step, applyResult, hr]
    | ok db' =>
        simp only [step, applyResult, hr]
        exact insertCheckup_ok_patients db a row now db' hr
  · intro db a row now
    cases hr : insertDiagnosis db a row now with
    | error e => simp only [step, applyResult, hr]
    | ok db' =>
        simp only [step, applyResult, hr]
        exact insertDiagnosis_ok_patients db a row now db' hr
  · intro db a row now
    cases hr : insertPrescription db a row now with
    | error e => simp only [step, applyResult, hr]
    | ok db' =>
        simp only [step, applyResult, hr]
        exact insertPrescription_ok_patients db a row now db' hr

/-- C7: after a diagnosis is successfully inserted for a checkup, any further
diagnosis insert for the same checkup by an authorized doctor fails with the
uniqueness violation; likewise for prescriptions against a diagnosis — so of
two attempts, exactly the first succeeds. -/
theorem claim7_unique_child :
    (∀ (db : DB) (a1 : Nat) (row1 : DiagnosisInsert) (now1 : Nat) (db' : DB)
       (a2 : Nat) (row2 : DiagnosisInsert) (now2 : Nat),
      insertDiagnosis db a1 row1 now1 = .ok db' →
      row2.checkup_id = row1.checkup_id →
      hasRole db' a2 [.doctor] = true →
      insertDiagnosis db' a2 row2 now2 = .error .duplicateError) ∧
    (∀ (db : DB) (a1 : Nat) (row1 : PrescriptionInsert) (now1 : Nat) (db' : DB)
       (a2 : Nat) (row2 : PrescriptionInsert) (now2 : Nat),
      insertPrescription db a1 row1 now1 = .ok db' →
      row2.diagnosis_id = row1.diagnosis_id →
      hasRole db' a2 [.doctor] = true →
      insertPrescription db' a2 row2 now2 = .error .duplicateError) := by
  constructor
  · intro db a1 row1 now1 db' a2 row2 now2 hok hsame h2
    obtain ⟨-, hfk, -, -, hdb⟩ := insertDiagnosis_ok_elim db a1 row1 now1 db' hok
    obtain ⟨-, hcks, hdgs, -⟩ := update_on_diagnosis_tables
      { db with diagnoses := db.diagnoses ++ [diagnosisRow row1 now1] } a1 row1.checkup_id
    subst hdb
    apply insertDiagnosis_dup _ _ _ _ h2
    · rw [hcks, hsame]
      exact hfk
    · rw [hdgs, hsame, List.any_append]
      simp [diagnosisRow]
  · intro db a1 row1 now1 db' a2 row2 now2 hok hsame h2
    obtain ⟨-, hfk, -, -, hdb⟩ := insertPrescription_ok_elim db a1 row1 now1 db' hok
    obtain ⟨-, -, hdgs, hrxs⟩ := update_on_prescription_tables
      { db with prescriptions := db.prescriptions ++ [prescriptionRow row1 now1] } a1 row1.diagnosis_id
    subst hdb
    apply insertPrescription_dup _ _ _ _ h2
    · rw [hdgs, hsame]
      exact hfk
    · rw [hrxs, hsame, List.any_append]
      simp [prescriptionRow]

/-- C7 witness: a second diagnosis against checkup 200 fails as a duplicate. -/
theorem claim7_witness :
    insertDiagnosis exDB2 2 exDg 13 = .ok exDB3 ∧
    exDg2.checkup_id = exDg.checkup_id ∧
    hasRole exDB3 2 [.doctor] = true ∧
    insertDiagnosis exDB3 2 exDg2 14 = .error .duplicateError ∧
    insertPrescription exDB3 2 exRx 15 = .ok exDB4 ∧
    exRx2.diagnosis_id = exRx.diagnosis_id ∧
    hasRole exDB4 2 [.doctor] = true ∧
    insertPrescription exDB4 2 exRx2 16 = .error .duplicateError :=
  ⟨by rfl, by rfl, by rfl,
   claim7_unique_child.1 exDB2 2 exDg 13 exDB3 2 exDg2 14 (by rfl) (by rfl) (by rfl),
   by rfl, by rfl, by rfl,
   claim7_unique_child.2 exDB3 2 exRx 15 exDB4 2 exRx2 16 (by rfl) (by rfl) (by rfl)⟩

/-- C8: over any sequence of requests — inserts, guarded updates, and
(cascading) deletes of checkups, diagnoses or prescriptions — a stored
patient's status never moves backwards along
registered → checked → diagnosed → prescribed. -/
theorem claim8_status_monotonic :
    ∀ (db : DB) (ops : List Op) (pid : Nat) (p : Patient),
    findPatient db pid = some p →
    ∃ p', findPatient (run db ops) pid = some p' ∧
      statusRank p.status ≤ statusRank p'.status := by
  intro db ops pid
  induction ops generalizing db with
  | nil => exact fun p h => ⟨p, h, le_refl _⟩
  | cons op t ih =>
      intro p h
      obtain ⟨p1, h1, le1⟩ := step_findPatient_mono db op pid p h
      obtain ⟨p2, h2, le2⟩ := ih (step db op) p1 h1
      exact ⟨p2, h2, le_trans le1 le2⟩

/-- C8 witness: checkup then diagnosis then a cascading delete of the checkup;
the patient's status never drops below its starting rank, and the delete does
not reset it (in the program the status in fact never leaves "registered",
the transition trigger's UPDATE being blocked by row-level security). -/
theorem claim8_witness :
    findPatient exDB1 100 = some exP1 ∧
    (∃ p', findPatient (run exDB1 exOps) 100 = some p' ∧
      statusRank exP1.status ≤ statusRank p'.status) ∧
    findPatient (run exDB1 exOps) 100 = some exP1 ∧
    (run exDB1 exOps).checkups = [] :=
  ⟨by rfl, claim8_status_monotonic exDB1 exOps 100 exP1 (by rfl), by rfl, by rfl⟩

/-- C9: with an authorized actor, a patient insert whose age lies outside
0–150 or whose gender is not male/female/other fails with the validation
error; and every request preserves "all stored patient rows satisfy the
CHECK constraints". -/
theorem claim9_patient_validation :
    (∀ (db : DB) (a : Nat) (row : PatientInsert) (now : Nat),
      hasRole db a [.doctor, .operations] = true →
      (row.age < 0 ∨ row.age > 150 ∨ allowedGenders.contains row.gender = false) →
      insertPatient db a row now = .error .validationError) ∧
    (∀ (db : DB) (op : Op),
      (∀ p ∈ db.patients, patientValid p) →
      ∀ p ∈ (step db op).patients, patientValid p) := by
  constructor
  · intro db a row now h1 hbad
    by_cases hg : allowedGenders.contains row.gender = true
    · have hage : row.age < 0 ∨ row.age > 150 := by
        rcases hbad with h | h | h
        · exact Or.inl h
        · exact Or.inr h
        · rw [hg] at h
          exact absurd h (by simp)
      have hb : (decide (row.age < 0) || decide (row.age > 150)) = true := by
        rcases hage with h | h <;> simp [h]
      simp [insertPatient, h1, hg, hb]
    · have hg2 : row.gender ∉ allowedGenders := by
        revert hg
        cases hc : allowedGenders.contains row.gender <;> simp [← hc, hc]
      simp [insertPatient, h1, hg2]
  · exact step_preserves_patientValid

/-- C9 witness: an operations actor registering a 969-year-old is rejected
with the validation error; and the scenario store keeps all rows valid after
a further request. -/
theorem claim9_witness :
    hasRole exDB0 1 [.doctor, .operations] = true ∧
    (exBadAge.age < 0 ∨ exBadAge.age > 150 ∨
      allowedGenders.contains exBadAge.gender = false) ∧
    insertPatient exDB0 1 exBadAge 5 = .error .validationError ∧
    (∀ p ∈ exDB1.patients, patientValid p) ∧
    (∀ p ∈ (step exDB1 (.insCheckup 1 exCk 11)).patients, patientValid p) :=
  ⟨by rfl, by decide,
   claim9_patient_validation.1 exDB0 1 exBadAge 5 (by rfl) (by decide),
   by decide,
   claim9_patient_validation.2 exDB1 (.insCheckup 1 exCk 11) (by decide)⟩

end EHR
